import Mathlib

/-!
Verification of the Runloop runtime client
(src/openhands/runtime/runloop/runtime.py and runtime2.py).

The remote provider surface (the Runloop SDK) is modelled as data: each
action model receives the responses the provider would give and returns the
observation or escaping exception of the Python method together with the
list of remote calls it issued, so claims about call counts, error
conversion and round-trip fidelity become statements about these functions.
-/

namespace Runloop

/-- A remote call issued through the Runloop SDK client. -/
inductive RCall where
  | retrieve
  | exec (cmd : String)
  | readFile (path : String)
  | writeFile (path : String) (contents : String)
  | upload (localFile : String) (remotePath : String)
deriving DecidableEq, Repr

/-- Outcome of one tenacity-retried run of a readiness poll: whether it
returned normally, the remote calls it issued in order, and how many times
the fixed-wait backoff slept between attempts. -/
structure PollOut where
  success : Bool
  calls : List RCall
  sleeps : Nat
deriving DecidableEq, Repr

/-- Shared body of `RunloopRuntime._wait_until_alive` (runtime.py lines
65-87) and `RunloopRuntime2._wait_for_devbox` (runtime2.py lines 139-156).
`cached` is the status held in `self.devbox.status`; `f i` is the status the
i-th `devboxes.retrieve` call reports; `onSuccess` lists the extra remote
calls issued once a query reports running (the `cd` execute_sync in
runtime.py, nothing in runtime2.py); `fuel` is the remaining tenacity
attempt budget. An attempt returns at once when the cached status is
running; otherwise it retrieves the status and raises when it is not
running, which tenacity turns into sleep-and-retry until the budget is
spent. The cached status is only replaced on success, so it is constant
during one failing run. -/
def pollAux (onSuccess : List RCall) (cached : String) (f : Nat → String) :
    Nat → Nat → PollOut
  | _, 0 => ⟨false, [], 0⟩
  | i, fuel + 1 =>
    if cached = "running" then ⟨true, [], 0⟩
    else if f i = "running" then ⟨true, RCall.retrieve :: onSuccess, 0⟩
    else if fuel = 0 then ⟨false, [RCall.retrieve], 0⟩
    else
      let rest := pollAux onSuccess cached f (i + 1) fuel
      ⟨rest.success, RCall.retrieve :: rest.calls, rest.sleeps + 1⟩

/-- `RunloopRuntime._wait_until_alive` (runtime.py): tenacity
`stop_after_attempt(60)` with `wait_fixed(0.75)`; after a query reports
running it also issues `cd <workspace>` in the named shell. -/
def wait_until_alive (workspace cached : String) (f : Nat → String) : PollOut :=
  pollAux [RCall.exec ("cd " ++ workspace)] cached f 0 60

/-- `RunloopRuntime2._wait_for_devbox` (runtime2.py): tenacity
`stop_after_attempt(90)` with `wait_fixed(0.75)`; no extra command on
success. -/
def wait_for_devbox (cached : String) (f : Nat → String) : PollOut :=
  pollAux [] cached f 0 90

/-- When the cached status is already running, a poll run with a positive
attempt budget returns at once with no remote call and no sleep. -/
lemma pollAux_cached_running (onSuccess : List RCall) (cached : String)
    (f : Nat → String) (i fuel : Nat) (hc : cached = "running") (hf : 0 < fuel) :
    pollAux onSuccess cached f i fuel = ⟨true, [], 0⟩ := by
  cases fuel with
  | zero => exact absurd hf (by simp)
  | succ n => simp [pollAux, hc]

lemma wait_until_alive_running (workspace : String) (f : Nat → String) :
    wait_until_alive workspace "running" f = ⟨true, [], 0⟩ :=
  pollAux_cached_running _ _ _ _ _ rfl (by norm_num)

lemma wait_for_devbox_running (f : Nat → String) :
    wait_for_devbox "running" f = ⟨true, [], 0⟩ :=
  pollAux_cached_running _ _ _ _ _ rfl (by norm_num)

/-- One failing attempt with budget left: a status query, then sleep and
recurse on the rest of the budget. -/
lemma pollAux_step (onSuccess : List RCall) (cached : String)
    (f : Nat → String) (i fuel : Nat) (hc : cached ≠ "running")
    (hfi : f i ≠ "running") (hfuel : fuel ≠ 0) :
    pollAux onSuccess cached f i (fuel + 1)
      = ⟨(pollAux onSuccess cached f (i + 1) fuel).success,
         RCall.retrieve :: (pollAux onSuccess cached f (i + 1) fuel).calls,
         (pollAux onSuccess cached f (i + 1) fuel).sleeps + 1⟩ := by
  simp only [pollAux, if_neg hc, if_neg hfi, if_neg hfuel]

/-- When the cached status is not running and no retrieve ever reports
running, the poll performs exactly one status query per budgeted attempt,
sleeps between attempts, and fails. -/
lemma pollAux_never_running (onSuccess : List RCall) (cached : String)
    (f : Nat → String) (hc : cached ≠ "running")
    (hf : ∀ j, f j ≠ "running") :
    ∀ fuel i, 0 < fuel →
      pollAux onSuccess cached f i fuel
        = ⟨false, List.replicate fuel RCall.retrieve, fuel - 1⟩ := by
  intro fuel
  induction fuel with
  | zero => intro i h; exact absurd h (by simp)
  | succ n ih =>
    intro i _
    cases n with
    | zero => simp [pollAux, hc, hf i]
    | succ m =>
      have hrest := ih (i + 1) (Nat.succ_pos m)
      rw [pollAux_step onSuccess cached f i (m + 1) hc (hf i)
        (Nat.succ_ne_zero m), hrest]
      simp [List.replicate_succ]

/-- C3: a readiness-poll run in which the devbox never reports running (the
cached status is not running, and no status query answers running) fails,
and the number of status queries it performed is exactly the configured
attempt cap: 60 for `_wait_until_alive`, 90 for `_wait_for_devbox`. The
failure surfaces as the exhausted tenacity retry, the model of
`SandboxUnavailableError`. -/
theorem poller_exhausts_attempt_budget (workspace cached : String)
    (f : Nat → String) (hc : cached ≠ "running")
    (hf : ∀ j, f j ≠ "running") :
    (wait_until_alive workspace cached f).success = false ∧
    (wait_until_alive workspace cached f).calls
      = List.replicate 60 RCall.retrieve ∧
    (wait_until_alive workspace cached f).calls.length = 60 ∧
    (wait_for_devbox cached f).success = false ∧
    (wait_for_devbox cached f).calls = List.replicate 90 RCall.retrieve ∧
    (wait_for_devbox cached f).calls.length = 90 := by
  have h1 := pollAux_never_running [RCall.exec ("cd " ++ workspace)] cached f
    hc hf 60 0 (by norm_num)
  have h2 := pollAux_never_running [] cached f hc hf 90 0 (by norm_num)
  refine ⟨?_, ?_, ?_, ?_, ?_, ?_⟩ <;>
    simp [wait_until_alive, wait_for_devbox, h1, h2]

/-- Witness for C3 at a devbox that stays pending forever. -/
theorem poller_exhausts_attempt_budget_witness :
    (("pending" : String) ≠ "running" ∧
      ∀ j : Nat, (fun _ : Nat => "pending") j ≠ "running") ∧
    (wait_until_alive "/workspace" "pending" (fun _ => "pending")).success
        = false ∧
    (wait_until_alive "/workspace" "pending" (fun _ => "pending")).calls
        = List.replicate 60 RCall.retrieve ∧
    (wait_until_alive "/workspace" "pending" (fun _ => "pending")).calls.length
        = 60 ∧
    (wait_for_devbox "pending" (fun _ => "pending")).success = false ∧
    (wait_for_devbox "pending" (fun _ => "pending")).calls
        = List.replicate 90 RCall.retrieve ∧
    (wait_for_devbox "pending" (fun _ => "pending")).calls.length = 90 :=
  ⟨⟨by decide, by intro j; show ("pending" : String) ≠ "running"; decide⟩,
    poller_exhausts_attempt_budget "/workspace" "pending" (fun _ => "pending")
      (by decide) (by intro j; show ("pending" : String) ≠ "running"; decide)⟩

/-- C8: when the cached handle already reports running, both readiness
waits return at once: no sleep, no remote call of any kind. -/
theorem poller_fast_path (workspace cached : String) (f : Nat → String)
    (hc : cached = "running") :
    wait_until_alive workspace cached f = ⟨true, [], 0⟩ ∧
    wait_for_devbox cached f = ⟨true, [], 0⟩ := by
  subst hc
  exact ⟨wait_until_alive_running workspace f, wait_for_devbox_running f⟩

/-- Witness for C8 with a provider that would answer pending if it were
ever asked. -/
theorem poller_fast_path_witness :
    ("running" : String) = "running" ∧
    wait_until_alive "/workspace" "running" (fun _ => "pending")
        = ⟨true, [], 0⟩ ∧
    wait_for_devbox "running" (fun _ => "pending") = ⟨true, [], 0⟩ :=
  ⟨rfl, poller_fast_path "/workspace" "running" (fun _ => "pending") rfl⟩

/-- What a provider call does: return a value, raise `APIStatusError`
carrying a message, or raise some other exception whose string rendering is
the message. -/
inductive PResult (α : Type) where
  | ok (val : α)
  | statusError (message : String)
  | otherError (message : String)
deriving DecidableEq, Repr

/-- Result of `devboxes.execute_sync`: the fields the runtime reads. -/
structure ExecResult where
  stdout : String
  exit_status : Int
deriving DecidableEq, Repr

/-- An exception escaping a runtime method. -/
inductive Exc where
  | sandboxUnavailable
  | apiStatus (message : String)
  | other (message : String)
  | valueError (message : String)
  | genericError (message : String)
deriving DecidableEq, Repr

/-- The observation types the runtime produces. -/
inductive Observation where
  | cmdOutput (content : String) (command_id : Nat) (command : String)
      (exit_code : Int)
  | fileRead (content : String) (path : String)
  | fileWrite (content : String) (path : String)
  | error (content : String)
deriving DecidableEq, Repr

/-- Modelled from the spec: `openhands.runtime.utils.files.read_lines` is
not under src/. Per the spec, a read returns the half-open line range from
`start` up to `end_`, where an absent `end_` means end of file and
out-of-range indices clamp rather than error. -/
def read_lines (lines : List String) (start : Nat) (end_ : Option Nat) :
    List String :=
  let e := match end_ with
    | none => lines.length
    | some e => min e lines.length
  (lines.take e).drop start

/-- `RunloopRuntime.read` (runtime.py lines 92-103): waits for readiness,
fetches the whole remote file, splits it on newline, and joins the
requested line range. There is no try/except in this method, so any
exception from the provider call propagates. Returns the escaping exception
or the observation, with the remote calls issued. -/
def read (workspace cached : String) (f : Nat → String)
    (resp : PResult String) (path : String) (start : Nat)
    (end_ : Option Nat) : Except Exc Observation × List RCall :=
  let po := wait_until_alive workspace cached f
  if po.success = false then (Except.error Exc.sandboxUnavailable, po.calls)
  else
    match resp with
    | PResult.ok contents =>
        (Except.ok (Observation.fileRead
            (String.join (read_lines (contents.splitOn "\n") start end_))
            path),
          po.calls ++ [RCall.readFile path])
    | PResult.statusError m =>
        (Except.error (Exc.apiStatus m), po.calls ++ [RCall.readFile path])
    | PResult.otherError m =>
        (Except.error (Exc.other m), po.calls ++ [RCall.readFile path])

/-- `RunloopRuntime.write` (runtime.py lines 105-127): waits for readiness,
sends the full contents; `except APIStatusError` returns an Error
observation with the provider message, and the following bare
`except Exception` returns an Error observation with the exception text, so
no exception escapes the provider call. -/
def write (workspace cached : String) (f : Nat → String)
    (resp : PResult Unit) (path contents : String) :
    Except Exc Observation × List RCall :=
  let po := wait_until_alive workspace cached f
  if po.success = false then (Except.error Exc.sandboxUnavailable, po.calls)
  else
    match resp with
    | PResult.ok _ =>
        (Except.ok (Observation.fileWrite "" path),
          po.calls ++ [RCall.writeFile path contents])
    | PResult.statusError m =>
        (Except.ok (Observation.error m),
          po.calls ++ [RCall.writeFile path contents])
    | PResult.otherError m =>
        (Except.ok (Observation.error m),
          po.calls ++ [RCall.writeFile path contents])

/-- `RunloopRuntime.run` (runtime.py lines 198-219): waits for readiness,
executes the command in the named shell, and returns the stdout and exit
status verbatim in a CmdOutput observation; only `APIStatusError` is caught
and turned into an Error observation, anything else propagates. -/
def run (workspace cached : String) (f : Nat → String)
    (resp : PResult ExecResult) (command_id : Nat) (command : String) :
    Except Exc Observation × List RCall :=
  let po := wait_until_alive workspace cached f
  if po.success = false then (Except.error Exc.sandboxUnavailable, po.calls)
  else
    match resp with
    | PResult.ok r =>
        (Except.ok (Observation.cmdOutput r.stdout command_id command
            r.exit_status),
          po.calls ++ [RCall.exec command])
    | PResult.statusError m =>
        (Except.ok (Observation.error m), po.calls ++ [RCall.exec command])
    | PResult.otherError m =>
        (Except.error (Exc.other m), po.calls ++ [RCall.exec command])

/-- Python str() of the optional path as the f-string in list_files
interpolates it: None renders as the four characters None. -/
def pyStr (path : Option String) : String :=
  match path with
  | none => "None"
  | some p => p

/-- `RunloopRuntime.list_files` (runtime.py lines 183-196): waits for
readiness, executes the f-string command ls followed by the interpolated
path, and splits stdout on newlines; both except branches log and then
re-raise, so every exception propagates. -/
def list_files (workspace cached : String) (f : Nat → String)
    (resp : PResult ExecResult) (path : Option String) :
    Except Exc (List String) × List RCall :=
  let po := wait_until_alive workspace cached f
  if po.success = false then (Except.error Exc.sandboxUnavailable, po.calls)
  else
    let cmd := "ls " ++ pyStr path
    match resp with
    | PResult.ok r =>
        (Except.ok (r.stdout.splitOn "\n"), po.calls ++ [RCall.exec cmd])
    | PResult.statusError m =>
        (Except.error (Exc.apiStatus m), po.calls ++ [RCall.exec cmd])
    | PResult.otherError m =>
        (Except.error (Exc.other m), po.calls ++ [RCall.exec cmd])

/-- C4 counterexample: in `read` a provider status error is not converted
to an Error observation; it propagates as an exception. -/
theorem read_propagates_status_error_cex :
    (read "/workspace" "running" (fun _ => "pending")
        (PResult.statusError "boom") "/a.txt" 0 none).1
      = Except.error (Exc.apiStatus "boom") ∧
    (read "/workspace" "running" (fun _ => "pending")
        (PResult.statusError "boom") "/a.txt" 0 none).1
      ≠ Except.ok (Observation.error "boom") := by
  constructor
  · rfl
  · simp [read, wait_until_alive_running]

/-- C4 amended: when the readiness wait succeeds and the provider raises a
status error, `run` and `write` return an Error observation whose content
is the provider message, while `read` lets the exception propagate. -/
theorem status_error_handling_amended (workspace cached : String)
    (f : Nat → String) (m path contents command : String)
    (command_id start : Nat) (end_ : Option Nat)
    (h : (wait_until_alive workspace cached f).success = true) :
    (run workspace cached f (PResult.statusError m) command_id command).1
      = Except.ok (Observation.error m) ∧
    (write workspace cached f (PResult.statusError m) path contents).1
      = Except.ok (Observation.error m) ∧
    (read workspace cached f (PResult.statusError m) path start end_).1
      = Except.error (Exc.apiStatus m) := by
  refine ⟨?_, ?_, ?_⟩ <;> simp [run, write, read, h]

/-- Witness for the amended C4 at an already-running handle. -/
theorem status_error_handling_amended_witness :
    (wait_until_alive "/workspace" "running" (fun _ => "pending")).success
        = true ∧
    (run "/workspace" "running" (fun _ => "pending")
        (PResult.statusError "boom") 1 "ls").1
      = Except.ok (Observation.error "boom") ∧
    (write "/workspace" "running" (fun _ => "pending")
        (PResult.statusError "boom") "/a.txt" "hi").1
      = Except.ok (Observation.error "boom") ∧
    (read "/workspace" "running" (fun _ => "pending")
        (PResult.statusError "boom") "/a.txt" 0 none).1
      = Except.error (Exc.apiStatus "boom") :=
  ⟨by rw [wait_until_alive_running],
    status_error_handling_amended "/workspace" "running" (fun _ => "pending")
      "boom" "/a.txt" "hi" "ls" 1 0 none
      (by rw [wait_until_alive_running])⟩

/-- C6 counterexample: `write` converts an unclassified exception into an
Error observation instead of letting it propagate (the bare
`except Exception` branch at runtime.py lines 124-127). -/
theorem write_swallows_unclassified_cex :
    (write "/workspace" "running" (fun _ => "pending")
        (PResult.otherError "disk full") "/a.txt" "hi").1
      = Except.ok (Observation.error "disk full") := by
  rfl

/-- C7: when the readiness wait succeeds and the provider completes the
execution, the observation returned by `run` carries exactly the stdout
string and exit status the execution call reported, untransformed. -/
theorem run_roundtrip_fidelity (workspace cached : String)
    (f : Nat → String) (out : String) (code : Int) (command : String)
    (command_id : Nat)
    (h : (wait_until_alive workspace cached f).success = true) :
    (run workspace cached f (PResult.ok ⟨out, code⟩) command_id command).1
      = Except.ok (Observation.cmdOutput out command_id command code) := by
  simp [run, h]

/-- Witness for C7 at a concrete execution result. -/
theorem run_roundtrip_fidelity_witness :
    (wait_until_alive "/workspace" "running" (fun _ => "pending")).success
        = true ∧
    (run "/workspace" "running" (fun _ => "pending")
        (PResult.ok ⟨"hello", 7⟩) 3 "echo hello").1
      = Except.ok (Observation.cmdOutput "hello" 3 "echo hello" 7) :=
  ⟨by rw [wait_until_alive_running],
    run_roundtrip_fidelity "/workspace" "running" (fun _ => "pending")
      "hello" 7 "echo hello" 3 (by rw [wait_until_alive_running])⟩

/-- C10: called with path None on an already-running handle, `list_files`
executes the literal remote command ls None, the None interpolated as text,
whatever the provider then answers. -/
theorem list_files_none_literal (workspace : String) (f : Nat → String)
    (resp : PResult ExecResult) :
    (list_files workspace "running" f resp none).2
      = [RCall.exec "ls None"] := by
  cases resp <;> simp [list_files, wait_until_alive_running, pyStr]

/-- Local filesystem events of a copy job. -/
inductive LocalEv where
  | createTempZip (name : String)
  | zipEntry (filePath : String) (arcname : String)
  | removeLocal (name : String)
deriving DecidableEq, Repr

/-- Whether a local event deletes a local file. -/
def isRemoveLocal : LocalEv → Bool
  | LocalEv.removeLocal _ => true
  | _ => false

/-- Characters split on a separator character; the list helpers keep every
path computation structurally recursive so concrete runs reduce in the
kernel. -/
def splitOnChar (c : Char) : List Char → List (List Char)
  | [] => [[]]
  | x :: xs =>
    let r := splitOnChar c xs
    if x = c then [] :: r
    else
      match r with
      | [] => [[x]]
      | y :: ys => (x :: y) :: ys

/-- Pieces joined back with a slash between them. -/
def joinSlash : List (List Char) → List Char
  | [] => []
  | [x] => x
  | x :: y :: ys => x ++ '/' :: joinSlash (y :: ys)

/-- Whether the first character list starts the second. -/
def startsList : List Char → List Char → Bool
  | [], _ => true
  | _ :: _, [] => false
  | x :: xs, y :: ys => x = y && startsList xs ys

/-- Python os.path.dirname on the POSIX, no-trailing-slash paths copy_to
feeds it: everything before the final slash, empty when there is none. -/
def dirname (p : String) : String :=
  String.mk (joinSlash (splitOnChar '/' p.data).dropLast)

/-- Python os.path.basename, the Path(...).name of such a path: its final
component. -/
def basename (p : String) : String :=
  String.mk ((splitOnChar '/' p.data).getLastD p.data)

/-- Python os.path.relpath restricted to the shapes copy_to produces, where
the walked file path starts with the base directory followed by a slash. -/
def relpath (p base : String) : String :=
  if base = "" then p
  else if startsList (base.data ++ ['/']) p.data then
    String.mk (p.data.drop (base.data.length + 1))
  else p

/-- The temporary remote path the archive is uploaded to
(runtime.py line 141). -/
def tmp_zip_file_path (sandbox_dest : String) : String :=
  "/tmp/" ++ sandbox_dest ++ ".zip"

/-- The single remote command issued after the upload (runtime.py line
163): it extracts the hard-coded path /tmp/uploaded.zip and, if that
succeeds, removes the uploaded temporary path. -/
def unzip_command (sandbox_dest : String) : String :=
  "unzip /tmp/uploaded.zip -d " ++ sandbox_dest ++ " && rm "
    ++ tmp_zip_file_path sandbox_dest

/-- The remote command the claim describes: extract the uploaded archive
path itself into the destination, then remove that same path. Written from
the words of the spec for comparison with `unzip_command`. -/
def claimed_unzip_command (sandbox_dest : String) : String :=
  "unzip " ++ tmp_zip_file_path sandbox_dest ++ " -d " ++ sandbox_dest
    ++ " && rm " ++ tmp_zip_file_path sandbox_dest

/-- `RunloopRuntime.copy_to` (runtime.py lines 135-181). `srcIsDir` is what
`Path(host_src).is_dir()` answers; `walkFiles` lists the file paths
`os.walk(host_src)` joins, in order; `tmpName` is the name tempfile assigns
to the local temporary zip, which is opened with delete=False and never
removed; `uploadResp`, `unzipResp` and `mkdirResp` are the provider answers
to the upload, the extraction command and the mkdir command. Exceptions
from these calls are not caught here and propagate. Returns the escaping
exception or unit, the remote calls issued, and the local filesystem
events. -/
def copy_to (workspace cached : String) (f : Nat → String)
    (srcIsDir : Bool) (walkFiles : List String) (tmpName : String)
    (uploadResp : PResult Unit) (unzipResp : PResult ExecResult)
    (mkdirResp : PResult ExecResult) (host_src sandbox_dest : String)
    (recursive : Bool) : Except Exc Unit × List RCall × List LocalEv :=
  let po := wait_until_alive workspace cached f
  if po.success = false then
    (Except.error Exc.sandboxUnavailable, po.calls, [])
  else if recursive then
    let localEvs := LocalEv.createTempZip tmpName ::
      walkFiles.map (fun fp =>
        LocalEv.zipEntry fp (relpath fp (dirname host_src)))
    match uploadResp with
    | PResult.ok _ =>
      let upCalls := po.calls
        ++ [RCall.upload tmpName (tmp_zip_file_path sandbox_dest),
            RCall.exec (unzip_command sandbox_dest)]
      match unzipResp with
      | PResult.ok _ => (Except.ok (), upCalls, localEvs)
      | PResult.statusError m =>
          (Except.error (Exc.apiStatus m), upCalls, localEvs)
      | PResult.otherError m =>
          (Except.error (Exc.other m), upCalls, localEvs)
    | PResult.statusError m =>
        (Except.error (Exc.apiStatus m),
          po.calls ++ [RCall.upload tmpName (tmp_zip_file_path sandbox_dest)],
          localEvs)
    | PResult.otherError m =>
        (Except.error (Exc.other m),
          po.calls ++ [RCall.upload tmpName (tmp_zip_file_path sandbox_dest)],
          localEvs)
  else if srcIsDir then
    (Except.error (Exc.valueError "Recursive copy is required for directories"),
      po.calls, [])
  else
    let mkdirCall := RCall.exec ("mkdir -p " ++ sandbox_dest)
    match mkdirResp with
    | PResult.ok r =>
      if r.exit_status ≠ 0 then
        (Except.error (Exc.genericError
            ("Error creating directory: " ++ r.stdout)),
          po.calls ++ [mkdirCall], [])
      else
        match uploadResp with
        | PResult.ok _ =>
            (Except.ok (),
              po.calls ++ [mkdirCall,
                RCall.upload host_src
                  (sandbox_dest ++ "/" ++ basename host_src)], [])
        | PResult.statusError m =>
            (Except.error (Exc.apiStatus m),
              po.calls ++ [mkdirCall,
                RCall.upload host_src
                  (sandbox_dest ++ "/" ++ basename host_src)], [])
        | PResult.otherError m =>
            (Except.error (Exc.other m),
              po.calls ++ [mkdirCall,
                RCall.upload host_src
                  (sandbox_dest ++ "/" ++ basename host_src)], [])
    | PResult.statusError m =>
        (Except.error (Exc.apiStatus m), po.calls ++ [mkdirCall], [])
    | PResult.otherError m =>
        (Except.error (Exc.other m), po.calls ++ [mkdirCall], [])

/-- C1: on a recursive copy the archive entry names are relative to the
parent of the source, and the archive is uploaded to the temporary remote
path, but the single remote command then extracts the hard-coded path
/tmp/uploaded.zip, not the path the archive was uploaded to: at destination
workspace the upload goes to /tmp/workspace.zip while the command reads
unzip /tmp/uploaded.zip, so the path extracted differs from the path
uploaded and deleted, contradicting the claim. -/
theorem copy_to_extracts_wrong_path :
    copy_to "/workspace" "running" (fun _ => "pending") true
        ["/data/proj/a.txt", "/data/proj/sub/b.txt"] "/tmp/tmpabc.zip"
        (PResult.ok ()) (PResult.ok ⟨"", 0⟩) (PResult.ok ⟨"", 0⟩)
        "/data/proj" "workspace" true
      = (Except.ok (),
          [RCall.upload "/tmp/tmpabc.zip" "/tmp/workspace.zip",
            RCall.exec
              "unzip /tmp/uploaded.zip -d workspace && rm /tmp/workspace.zip"],
          [LocalEv.createTempZip "/tmp/tmpabc.zip",
            LocalEv.zipEntry "/data/proj/a.txt" "proj/a.txt",
            LocalEv.zipEntry "/data/proj/sub/b.txt" "proj/sub/b.txt"]) ∧
    unzip_command "workspace" ≠ claimed_unzip_command "workspace" := by
  constructor
  · rfl
  · decide

/-- C2: the temporary archive of a recursive copy is not transient: the
local temporary file is created with delete=False and the job emits no
local deletion event, on this run where the remote extraction command even
reported a nonzero exit status. -/
theorem copy_to_leaves_local_archive :
    ((copy_to "/workspace" "running" (fun _ => "pending") true
          ["/data/proj/a.txt"] "/tmp/tmpabc.zip" (PResult.ok ())
          (PResult.ok ⟨"unzip error", 9⟩) (PResult.ok ⟨"", 0⟩)
          "/data/proj" "workspace" true).2.2
        = [LocalEv.createTempZip "/tmp/tmpabc.zip",
            LocalEv.zipEntry "/data/proj/a.txt" "proj/a.txt"]) ∧
    ((copy_to "/workspace" "running" (fun _ => "pending") true
          ["/data/proj/a.txt"] "/tmp/tmpabc.zip" (PResult.ok ())
          (PResult.ok ⟨"unzip error", 9⟩) (PResult.ok ⟨"", 0⟩)
          "/data/proj" "workspace" true).2.2.countP isRemoveLocal = 0) := by
  constructor
  · rfl
  · rfl

/-- C5 counterexample: a non-recursive copy of a directory on a handle
whose cached status is pending issues remote calls, the readiness check
ones, before raising the validation error, so the remote call count is not
zero. -/
theorem copy_to_dir_remote_calls_cex :
    (copy_to "/workspace" "pending" (fun _ => "running") true []
          "/tmp/tmpabc.zip" (PResult.ok ()) (PResult.ok ⟨"", 0⟩)
          (PResult.ok ⟨"", 0⟩) "/data/proj" "workspace" false)
      = (Except.error
            (Exc.valueError "Recursive copy is required for directories"),
          [RCall.retrieve, RCall.exec "cd /workspace"], []) ∧
    [RCall.retrieve, RCall.exec "cd /workspace"].length ≠ 0 := by
  constructor
  · rfl
  · decide

/-- C5 amended: when the readiness wait succeeds, a non-recursive copy of a
local directory raises the validation error before any remote call of the
transfer itself: the only remote calls of the invocation are those of the
readiness check, and when the cached status is already running that is no
call at all. -/
theorem copy_to_dir_validation_amended (workspace cached : String)
    (f : Nat → String) (walkFiles : List String) (tmpName : String)
    (uploadResp : PResult Unit) (unzipResp mkdirResp : PResult ExecResult)
    (host_src sandbox_dest : String)
    (h : (wait_until_alive workspace cached f).success = true) :
    (copy_to workspace cached f true walkFiles tmpName uploadResp unzipResp
        mkdirResp host_src sandbox_dest false).1
      = Except.error
          (Exc.valueError "Recursive copy is required for directories") ∧
    (copy_to workspace cached f true walkFiles tmpName uploadResp unzipResp
        mkdirResp host_src sandbox_dest false).2.1
      = (wait_until_alive workspace cached f).calls ∧
    (cached = "running" →
      (copy_to workspace cached f true walkFiles tmpName uploadResp
          unzipResp mkdirResp host_src sandbox_dest false).2.1 = []) := by
  refine ⟨?_, ?_, ?_⟩
  · simp [copy_to, h]
  · simp [copy_to, h]
  · intro hc
    subst hc
    simp [copy_to, wait_until_alive_running]

/-- Witness for the amended C5 at an already-running handle: zero remote
calls. -/
theorem copy_to_dir_validation_amended_witness :
    (wait_until_alive "/workspace" "running" (fun _ => "pending")).success
        = true ∧
    (copy_to "/workspace" "running" (fun _ => "pending") true []
        "/tmp/tmpabc.zip" (PResult.ok ()) (PResult.ok ⟨"", 0⟩)
        (PResult.ok ⟨"", 0⟩) "/data/proj" "workspace" false).1
      = Except.error
          (Exc.valueError "Recursive copy is required for directories") ∧
    (copy_to "/workspace" "running" (fun _ => "pending") true []
        "/tmp/tmpabc.zip" (PResult.ok ()) (PResult.ok ⟨"", 0⟩)
        (PResult.ok ⟨"", 0⟩) "/data/proj" "workspace" false).2.1
      = (wait_until_alive "/workspace" "running" (fun _ => "pending")).calls ∧
    ("running" = "running" →
      (copy_to "/workspace" "running" (fun _ => "pending") true []
          "/tmp/tmpabc.zip" (PResult.ok ()) (PResult.ok ⟨"", 0⟩)
          (PResult.ok ⟨"", 0⟩) "/data/proj" "workspace" false).2.1 = []) :=
  ⟨by rw [wait_until_alive_running],
    copy_to_dir_validation_amended "/workspace" "running" (fun _ => "pending")
      [] "/tmp/tmpabc.zip" (PResult.ok ()) (PResult.ok ⟨"", 0⟩)
      (PResult.ok ⟨"", 0⟩) "/data/proj" "workspace"
      (by rw [wait_until_alive_running])⟩

/-- C6 amended: when the readiness wait succeeds and a provider call
raises an unclassified exception, `run`, `read`, `list_files` and
`copy_to` (at each of its provider calls: the archive upload, the
extraction command, the mkdir command and the single-file upload) let it
propagate, but `write` converts any exception, unclassified ones included,
into an Error observation. -/
theorem unclassified_propagation_amended (workspace cached : String)
    (f : Nat → String) (m path contents command : String)
    (command_id start : Nat) (end_ : Option Nat) (lp : Option String)
    (srcIsDir : Bool) (walkFiles : List String)
    (tmpName host_src sandbox_dest mkOut : String)
    (uploadResp : PResult Unit) (unzipResp mkdirResp : PResult ExecResult)
    (h : (wait_until_alive workspace cached f).success = true) :
    (run workspace cached f (PResult.otherError m) command_id command).1
      = Except.error (Exc.other m) ∧
    (read workspace cached f (PResult.otherError m) path start end_).1
      = Except.error (Exc.other m) ∧
    (list_files workspace cached f (PResult.otherError m) lp).1
      = Except.error (Exc.other m) ∧
    (copy_to workspace cached f srcIsDir walkFiles tmpName
        (PResult.otherError m) unzipResp mkdirResp host_src sandbox_dest
        true).1
      = Except.error (Exc.other m) ∧
    (copy_to workspace cached f srcIsDir walkFiles tmpName (PResult.ok ())
        (PResult.otherError m) mkdirResp host_src sandbox_dest true).1
      = Except.error (Exc.other m) ∧
    (copy_to workspace cached f false walkFiles tmpName uploadResp
        unzipResp (PResult.otherError m) host_src sandbox_dest false).1
      = Except.error (Exc.other m) ∧
    (copy_to workspace cached f false walkFiles tmpName
        (PResult.otherError m) unzipResp (PResult.ok ⟨mkOut, 0⟩) host_src
        sandbox_dest false).1
      = Except.error (Exc.other m) ∧
    (write workspace cached f (PResult.otherError m) path contents).1
      = Except.ok (Observation.error m) := by
  refine ⟨?_, ?_, ?_, ?_, ?_, ?_, ?_, ?_⟩ <;>
    simp [run, read, list_files, copy_to, write, h]

/-- Witness for the amended C6 at an already-running handle. -/
theorem unclassified_propagation_amended_witness :
    (wait_until_alive "/workspace" "running" (fun _ => "pending")).success
        = true ∧
    (run "/workspace" "running" (fun _ => "pending")
        (PResult.otherError "oops") 1 "ls").1
      = Except.error (Exc.other "oops") ∧
    (read "/workspace" "running" (fun _ => "pending")
        (PResult.otherError "oops") "/a.txt" 0 none).1
      = Except.error (Exc.other "oops") ∧
    (list_files "/workspace" "running" (fun _ => "pending")
        (PResult.otherError "oops") (some "/tmp")).1
      = Except.error (Exc.other "oops") ∧
    (copy_to "/workspace" "running" (fun _ => "pending") true
        ["/data/proj/a.txt"] "/tmp/tmpabc.zip" (PResult.otherError "oops")
        (PResult.ok ⟨"", 0⟩) (PResult.ok ⟨"", 0⟩) "/data/proj" "workspace"
        true).1
      = Except.error (Exc.other "oops") ∧
    (copy_to "/workspace" "running" (fun _ => "pending") true
        ["/data/proj/a.txt"] "/tmp/tmpabc.zip" (PResult.ok ())
        (PResult.otherError "oops") (PResult.ok ⟨"", 0⟩) "/data/proj"
        "workspace" true).1
      = Except.error (Exc.other "oops") ∧
    (copy_to "/workspace" "running" (fun _ => "pending") false
        ["/data/proj/a.txt"] "/tmp/tmpabc.zip" (PResult.ok ())
        (PResult.ok ⟨"", 0⟩) (PResult.otherError "oops") "/data/proj"
        "workspace" false).1
      = Except.error (Exc.other "oops") ∧
    (copy_to "/workspace" "running" (fun _ => "pending") false
        ["/data/proj/a.txt"] "/tmp/tmpabc.zip" (PResult.otherError "oops")
        (PResult.ok ⟨"", 0⟩) (PResult.ok ⟨"", 0⟩) "/data/proj" "workspace"
        false).1
      = Except.error (Exc.other "oops") ∧
    (write "/workspace" "running" (fun _ => "pending")
        (PResult.otherError "oops") "/a.txt" "hi").1
      = Except.ok (Observation.error "oops") :=
  ⟨by rw [wait_until_alive_running],
    unclassified_propagation_amended "/workspace" "running"
      (fun _ => "pending") "oops" "/a.txt" "hi" "ls" 1 0 none (some "/tmp")
      true ["/data/proj/a.txt"] "/tmp/tmpabc.zip" "/data/proj" "workspace"
      "" (PResult.ok ()) (PResult.ok ⟨"", 0⟩) (PResult.ok ⟨"", 0⟩)
      (by rw [wait_until_alive_running])⟩

/-- A begin or end of a remote call, tagged with the acting thread. -/
inductive CEvent where
  | beginCall (t : Nat)
  | endCall (t : Nat)
deriving DecidableEq, Repr

/-- Scan of a trace keeping the number of open remote calls: none means two
calls overlapped (a begin while one was already open, or an end with none
open); some k means the trace is serialized with k calls still open. -/
def openAfter : Nat → List CEvent → Option Nat
  | k, [] => some k
  | 0, CEvent.beginCall _ :: rest => openAfter 1 rest
  | _ + 1, CEvent.beginCall _ :: _ => none
  | k + 1, CEvent.endCall _ :: rest => openAfter k rest
  | 0, CEvent.endCall _ :: _ => none

/-- Modelled from the spec: the per-action dispatch wrapper lives in
`RemoteRuntime` (openhands/runtime/remote/runtime.py), which is not under
src/; runtime2.py line 41 creates the binary semaphore
`self.action_semaphore = threading.Semaphore(1)`. Per the spec, each action
acquires the semaphore before dispatching and releases it on every exit
path, exceptions included. Two concurrently invoked actions against one
handle are threads 1 and 2; a program counter runs 0 (wants the lock),
1 (holds it, about to dispatch), 2 (remote call in flight), 3 (call over or
aborted by an exception, still holding), 4 (released, done). -/
structure CState where
  semFree : Bool
  pc1 : Nat
  pc2 : Nat
  trace : List CEvent
deriving DecidableEq, Repr

/-- Interleaved small steps of the two actions: acquire only when the
semaphore is free, emit the begin and end of the remote call while holding
it, optionally abort before the call (an exception path), and always
release. -/
inductive CStep : CState → CState → Prop where
  | acquire1 (p2 : Nat) (tr : List CEvent) :
      CStep ⟨true, 0, p2, tr⟩ ⟨false, 1, p2, tr⟩
  | begin1 (s : Bool) (p2 : Nat) (tr : List CEvent) :
      CStep ⟨s, 1, p2, tr⟩ ⟨s, 2, p2, tr ++ [CEvent.beginCall 1]⟩
  | end1 (s : Bool) (p2 : Nat) (tr : List CEvent) :
      CStep ⟨s, 2, p2, tr⟩ ⟨s, 3, p2, tr ++ [CEvent.endCall 1]⟩
  | abort1 (s : Bool) (p2 : Nat) (tr : List CEvent) :
      CStep ⟨s, 1, p2, tr⟩ ⟨s, 3, p2, tr⟩
  | release1 (s : Bool) (p2 : Nat) (tr : List CEvent) :
      CStep ⟨s, 3, p2, tr⟩ ⟨true, 4, p2, tr⟩
  | acquire2 (p1 : Nat) (tr : List CEvent) :
      CStep ⟨true, p1, 0, tr⟩ ⟨false, p1, 1, tr⟩
  | begin2 (s : Bool) (p1 : Nat) (tr : List CEvent) :
      CStep ⟨s, p1, 1, tr⟩ ⟨s, p1, 2, tr ++ [CEvent.beginCall 2]⟩
  | end2 (s : Bool) (p1 : Nat) (tr : List CEvent) :
      CStep ⟨s, p1, 2, tr⟩ ⟨s, p1, 3, tr ++ [CEvent.endCall 2]⟩
  | abort2 (s : Bool) (p1 : Nat) (tr : List CEvent) :
      CStep ⟨s, p1, 1, tr⟩ ⟨s, p1, 3, tr⟩
  | release2 (s : Bool) (p1 : Nat) (tr : List CEvent) :
      CStep ⟨s, p1, 3, tr⟩ ⟨true, p1, 4, tr⟩

/-- States reachable from both actions pending and the semaphore free. -/
inductive Reach : CState → Prop where
  | init : Reach ⟨true, 0, 0, []⟩
  | next {s s' : CState} : Reach s → CStep s s' → Reach s'

/-- Whether a program counter sits inside the semaphore-guarded section. -/
def sec (p : Nat) : Bool :=
  decide (p = 1) || decide (p = 2) || decide (p = 3)

/-- Contribution of a program counter to the open-call count. -/
def openOf (p : Nat) : Nat :=
  if p = 2 then 1 else 0

/-- The serialization invariant: the trace scan matches the number of
threads with a call in flight, the guarded section holds at most one
thread, and the semaphore is free exactly when it holds none. -/
def Inv (s : CState) : Prop :=
  openAfter 0 s.trace = some (openOf s.pc1 + openOf s.pc2) ∧
  ¬(sec s.pc1 = true ∧ sec s.pc2 = true) ∧
  (s.semFree = true ↔ sec s.pc1 = false ∧ sec s.pc2 = false)

lemma openAfter_append_begin (tr : List CEvent) :
    ∀ k t, openAfter k tr = some 0 →
      openAfter k (tr ++ [CEvent.beginCall t]) = some 1 := by
  induction tr with
  | nil =>
    intro k t h
    simp only [openAfter] at h
    cases h
    rfl
  | cons e rest ih =>
    intro k t h
    cases e with
    | beginCall u =>
      cases k with
      | zero => exact ih 1 t h
      | succ j => simp [openAfter] at h
    | endCall u =>
      cases k with
      | zero => simp [openAfter] at h
      | succ j => exact ih j t h

lemma openAfter_append_end (tr : List CEvent) :
    ∀ k t, openAfter k tr = some 1 →
      openAfter k (tr ++ [CEvent.endCall t]) = some 0 := by
  induction tr with
  | nil =>
    intro k t h
    simp only [openAfter] at h
    cases h
    rfl
  | cons e rest ih =>
    intro k t h
    cases e with
    | beginCall u =>
      cases k with
      | zero => exact ih 1 t h
      | succ j => simp [openAfter] at h
    | endCall u =>
      cases k with
      | zero => simp [openAfter] at h
      | succ j => exact ih j t h

lemma inv_init : Inv ⟨true, 0, 0, []⟩ := by
  refine ⟨rfl, ?_, ?_⟩ <;> simp [sec, openOf]

lemma sec_false_parts {p : Nat} (h : sec p = false) :
    p ≠ 1 ∧ p ≠ 2 ∧ p ≠ 3 := by
  simp only [sec, Bool.or_eq_false_iff, decide_eq_false_iff_not] at h
  exact ⟨h.1.1, h.1.2, h.2⟩

lemma inv_step {s s' : CState} (hs : Inv s) (st : CStep s s') : Inv s' := by
  obtain ⟨h1, h2, h3⟩ := hs
  cases st with
  | acquire1 p2 tr =>
    obtain ⟨n1, n2, n3⟩ := sec_false_parts (h3.mp rfl).2
    refine ⟨?_, ?_, ?_⟩
    · simpa [openOf, n2] using h1
    · simp [sec, n1, n2, n3]
    · simp [sec, n1, n2, n3]
  | begin1 s0 p2 tr =>
    have hp2 : sec p2 = false := by
      by_contra hb
      exact h2 ⟨by simp [sec], by simpa using hb⟩
    obtain ⟨n1, n2, n3⟩ := sec_false_parts hp2
    have h1z : openAfter 0 tr = some 0 := by
      simpa [openOf, n2] using h1
    have hsf : s0 = false := by
      rcases s0 with _ | _
      · rfl
      · exact absurd ((h3.mp rfl).1) (by simp [sec])
    refine ⟨?_, ?_, ?_⟩
    · have := openAfter_append_begin tr 0 1 h1z
      simpa [openOf, n2] using this
    · simp [sec, n1, n2, n3]
    · subst hsf
      simp [sec]
  | end1 s0 p2 tr =>
    have hp2 : sec p2 = false := by
      by_contra hb
      exact h2 ⟨by simp [sec], by simpa using hb⟩
    obtain ⟨n1, n2, n3⟩ := sec_false_parts hp2
    have h1o : openAfter 0 tr = some 1 := by
      simpa [openOf, n2] using h1
    have hsf : s0 = false := by
      rcases s0 with _ | _
      · rfl
      · exact absurd ((h3.mp rfl).1) (by simp [sec])
    refine ⟨?_, ?_, ?_⟩
    · have := openAfter_append_end tr 0 1 h1o
      simpa [openOf, n2] using this
    · simp [sec, n1, n2, n3]
    · subst hsf
      simp [sec]
  | abort1 s0 p2 tr =>
    have hp2 : sec p2 = false := by
      by_contra hb
      exact h2 ⟨by simp [sec], by simpa using hb⟩
    obtain ⟨n1, n2, n3⟩ := sec_false_parts hp2
    have hsf : s0 = false := by
      rcases s0 with _ | _
      · rfl
      · exact absurd ((h3.mp rfl).1) (by simp [sec])
    refine ⟨?_, ?_, ?_⟩
    · simpa [openOf] using h1
    · simp [sec, n1, n2, n3]
    · subst hsf
      simp [sec]
  | release1 s0 p2 tr =>
    have hp2 : sec p2 = false := by
      by_contra hb
      exact h2 ⟨by simp [sec], by simpa using hb⟩
    obtain ⟨n1, n2, n3⟩ := sec_false_parts hp2
    refine ⟨?_, ?_, ?_⟩
    · simpa [openOf, n2] using h1
    · simp [sec, n1, n2, n3]
    · simp [sec, n1, n2, n3]
  | acquire2 p1 tr =>
    obtain ⟨n1, n2, n3⟩ := sec_false_parts (h3.mp rfl).1
    refine ⟨?_, ?_, ?_⟩
    · simpa [openOf, n2] using h1
    · simp [sec, n1, n2, n3]
    · simp [sec, n1, n2, n3]
  | begin2 s0 p1 tr =>
    have hp1 : sec p1 = false := by
      by_contra hb
      exact h2 ⟨by simpa using hb, by simp [sec]⟩
    obtain ⟨n1, n2, n3⟩ := sec_false_parts hp1
    have h1z : openAfter 0 tr = some 0 := by
      simpa [openOf, n2] using h1
    have hsf : s0 = false := by
      rcases s0 with _ | _
      · rfl
      · exact absurd ((h3.mp rfl).2) (by simp [sec])
    refine ⟨?_, ?_, ?_⟩
    · have := openAfter_append_begin tr 0 2 h1z
      simpa [openOf, n2] using this
    · simp [sec, n1, n2, n3]
    · subst hsf
      simp [sec]
  | end2 s0 p1 tr =>
    have hp1 : sec p1 = false := by
      by_contra hb
      exact h2 ⟨by simpa using hb, by simp [sec]⟩
    obtain ⟨n1, n2, n3⟩ := sec_false_parts hp1
    have h1o : openAfter 0 tr = some 1 := by
      simpa [openOf, n2] using h1
    have hsf : s0 = false := by
      rcases s0 with _ | _
      · rfl
      · exact absurd ((h3.mp rfl).2) (by simp [sec])
    refine ⟨?_, ?_, ?_⟩
    · have := openAfter_append_end tr 0 2 h1o
      simpa [openOf, n2] using this
    · simp [sec, n1, n2, n3]
    · subst hsf
      simp [sec]
  | abort2 s0 p1 tr =>
    have hp1 : sec p1 = false := by
      by_contra hb
      exact h2 ⟨by simpa using hb, by simp [sec]⟩
    obtain ⟨n1, n2, n3⟩ := sec_false_parts hp1
    have hsf : s0 = false := by
      rcases s0 with _ | _
      · rfl
      · exact absurd ((h3.mp rfl).2) (by simp [sec])
    refine ⟨?_, ?_, ?_⟩
    · simpa [openOf] using h1
    · simp [sec, n1, n2, n3]
    · subst hsf
      simp [sec]
  | release2 s0 p1 tr =>
    have hp1 : sec p1 = false := by
      by_contra hb
      exact h2 ⟨by simpa using hb, by simp [sec]⟩
    obtain ⟨n1, n2, n3⟩ := sec_false_parts hp1
    refine ⟨?_, ?_, ?_⟩
    · simpa [openOf, n2] using h1
    · simp [sec, n1, n2, n3]
    · simp [sec, n1, n2, n3]

lemma inv_reach {s : CState} (h : Reach s) : Inv s := by
  induction h with
  | init => exact inv_init
  | next _ st ih => exact inv_step ih st

/-- C9: in every reachable interleaving of two actions against the same
handle, the trace of remote-call begin and end events is serialized: the
scan `openAfter` never fails, so no remote call begins while another is in
flight — the semaphore acquired before dispatch and released on every exit
path keeps at most one action in flight at a time. -/
theorem actions_never_interleave (s : CState) (h : Reach s) :
    (openAfter 0 s.trace).isSome = true := by
  rw [(inv_reach h).1]
  rfl

/-- Witness for C9: the state reached by running action 1 to completion and
then action 2 to completion; its trace passes the serialization scan. -/
theorem actions_never_interleave_witness :
    (openAfter 0 [CEvent.beginCall 1, CEvent.endCall 1,
        CEvent.beginCall 2, CEvent.endCall 2]).isSome = true := by
  have h1 : Reach ⟨false, 1, 0, []⟩ :=
    Reach.next Reach.init (CStep.acquire1 0 [])
  have h2 : Reach ⟨false, 2, 0, [CEvent.beginCall 1]⟩ :=
    Reach.next h1 (CStep.begin1 false 0 [])
  have h3 : Reach ⟨false, 3, 0, [CEvent.beginCall 1, CEvent.endCall 1]⟩ :=
    Reach.next h2 (CStep.end1 false 0 [CEvent.beginCall 1])
  have h4 : Reach ⟨true, 4, 0, [CEvent.beginCall 1, CEvent.endCall 1]⟩ :=
    Reach.next h3 (CStep.release1 false 0 [CEvent.beginCall 1, CEvent.endCall 1])
  have h5 : Reach ⟨false, 4, 1, [CEvent.beginCall 1, CEvent.endCall 1]⟩ :=
    Reach.next h4 (CStep.acquire2 4 [CEvent.beginCall 1, CEvent.endCall 1])
  have h6 : Reach ⟨false, 4, 2, [CEvent.beginCall 1, CEvent.endCall 1,
      CEvent.beginCall 2]⟩ :=
    Reach.next h5 (CStep.begin2 false 4 [CEvent.beginCall 1, CEvent.endCall 1])
  have h7 : Reach ⟨false, 4, 3, [CEvent.beginCall 1, CEvent.endCall 1,
      CEvent.beginCall 2, CEvent.endCall 2]⟩ :=
    Reach.next h6 (CStep.end2 false 4
      [CEvent.beginCall 1, CEvent.endCall 1, CEvent.beginCall 2])
  exact actions_never_interleave _ h7

end Runloop
